import Mathlib

/-!
Verification development for the facebookloginapp repository.

The repository drives a browser through a login flow (two UI dialects,
"mobile" and "desktop"), persists per-account cookie/session artifacts, and
suspends full logins that hit a second-factor (2FA) page so that a later
HTTP call can resume them.  This file gives a shallow embedding of the
relevant functions of `helpers.js` and of the primary server variant in
`src/unnamed/part_000` (the legacy variant in the same file is embedded
where a claim cites it), and proves or refutes the frozen claims about it.

Conventions of the embedding:
* Playwright pages are modelled by the data the checked functions read from
  them: the current URL and title (as `Except`, since reading them can
  raise), the set of selector strings whose element is currently visible,
  and the number of elements matching the login-field selector.
* JavaScript exceptions are `Except String`; a caught exception carries the
  JS error message.
* The process-wide registries (`activeSessions`, `pending2FASessions`) and
  the on-disk artifact store are fields of an explicit `ServerState`.
* `setTimeout` registrations are modelled as a `timers` list in the state:
  a call to `setTimeout(cb, ms)` appends its delay and key; firing a timer
  is a separate step function embedding the callback body.
-/

namespace FBLogin

/-- Prefix test on character lists (no library dependence), used to build
the substring test below. -/
def listHasPre : List Char → List Char → Bool
  | _, [] => true
  | [], _ :: _ => false
  | a :: as, b :: bs => a = b && listHasPre as bs

/-- Substring occurrence on character lists. -/
def hasSubAux : List Char → List Char → Bool
  | [], pat => pat.isEmpty
  | s@(_ :: rest), pat => listHasPre s pat || hasSubAux rest pat

/-- JavaScript `String.prototype.includes`: substring containment. -/
def jsIncludes (s pat : String) : Bool :=
  hasSubAux s.data pat.data

/-- The two UI dialects ("versions") of the target site. -/
inductive Version
  | mobile
  | desktop
  deriving DecidableEq, Repr

/-- The string the source uses for each version. -/
def versionStr : Version → String
  | .mobile => "mobile"
  | .desktop => "desktop"

/-- The sanitizing transform applied to an account identity before it is
used in file and directory names: `email.replace(/[@.]/g, '_')`
(helpers.js `saveCookies`/`loadCookies`, server `createPersistentContext`,
session ids, and the delete route). -/
def sanitizeEmail (e : String) : String :=
  String.mk (e.data.map (fun c => if c = '@' || c = '.' then '_' else c))

/-- Cookie-artifact file name for an identity (helpers.js line 38/57). -/
def cookieFileName (email : String) : String :=
  sanitizeEmail email ++ "_cookies.json"

/-- Storage-snapshot file name for an identity (helpers.js line 119/138). -/
def sessionFileName (email : String) : String :=
  sanitizeEmail email ++ "_session.json"

/-- Cache directory name created for an identity and version by
`createPersistentContext` and by the full-login success path
(`${email.replace(/[@.]/g,'_')}_${version}`). -/
def loginCacheDirName (email : String) (v : Version) : String :=
  sanitizeEmail email ++ "_" ++ versionStr v

/-- Cache directory name the DELETE `/cookies/:email` route computes:
`path.join(CACHE_DIR, email.replace(/[@.]/g, '_'))` — note: no version
suffix. -/
def deleteCacheDirName (email : String) : String :=
  sanitizeEmail email

/-- The page state read by the outcome classifiers. `urlVal` and
`titleVal` are `Except` because `page.url()` / `page.title()` can raise;
`visible` is the set of selector strings whose probe reports a visible
element (a probe that raises only `continue`s in the source, so it is
equivalent to "not visible"); `loginFieldsCount` is the count of elements
matching `input[name="email"], input[type="password"]`. -/
structure Page where
  urlVal : Except String String
  titleVal : Except String String
  visible : List String
  loginFieldsCount : Nat
  deriving Repr

/-- The 2FA indicator selectors probed by helpers.js `checkFor2FA`
(lines 742-811), in source order. -/
def twoFAIndicators : List String :=
  [ "input[placeholder*=\"código\" i]",
    "input[placeholder*=\"code\" i]",
    "input[name=\"approvals_code\"]",
    "input[id=\"approvals_code\"]",
    "input[data-testid=\"2fa_code\"]",
    "input[inputmode=\"numeric\"]",
    "input[aria-label*=\"código\" i]",
    "input[aria-label*=\"Código\" i]",
    "input[type=\"text\"][maxlength=\"6\"]",
    "input[autocomplete=\"one-time-code\"]",
    "text=Ve a tu app de autenticación",
    "text=Ingresa el código de 6 dígitos para esta cuenta",
    "text=desde la app de autenticación en dos pasos que configuraste",
    "text=app de autenticación",
    "text=Duo Mobile",
    "text=Google Authenticator",
    "text=Confía en este dispositivo y omite este paso",
    ":text(\"Ve a tu app\")",
    ":text(\"código de 6 dígitos\")",
    ":text(\"app de autenticación\")",
    ":text(\"Ingresa el código\")",
    ":text(\"dos pasos\")",
    ":text(\"autenticación en dos\")",
    "text=código de",
    "text=código de verificación",
    "text=autenticación de dos factores",
    "text=Ingresa el código de 6 dígitos",
    "text=Revisa tu dispositivo de autenticación",
    "text=Código de seguridad",
    "text=Código",
    "text=authentication code",
    "text=two-factor",
    "text=verificación",
    "text=verification",
    "text=Enter the 6-digit code",
    "text=Check your authentication device",
    "text=Security code",
    "text=Two-Factor Authentication",
    "text=Go to your authentication app",
    "[data-testid=\"2fa-form\"]",
    "[role=\"dialog\"]:has-text(\"código\")",
    "[role=\"dialog\"]:has-text(\"code\")",
    "form:has-text(\"código de verificación\")",
    "form:has-text(\"authentication code\")",
    "button:has-text(\"Continuar\")",
    "div[role=\"button\"]:has-text(\"Continuar\")",
    "button:has-text(\"Continue\")",
    "div[role=\"button\"]:has-text(\"Continue\")",
    "button:has-text(\"Usar otro método\")",
    "div[role=\"button\"]:has-text(\"Usar otro método\")",
    "div:has-text(\"Ve a tu app de autenticación\")",
    "div:has-text(\"Ingresa el código de 6 dígitos\")",
    "form:has-text(\"código de 6 dígitos\")" ]

/-- The URL fragments `checkFor2FA` matches against the current URL
(lines 834-846). -/
def twoFAUrlPatterns : List String :=
  [ "checkpoint", "two_factor", "approvals", "security", "verify",
    "auth-app", "authentication", "confirm", "mfa", "otp", "factor" ]

/-- Body of `checkFor2FA` as it runs inside its top-level `try`: it logs
`page.url()` and `await page.title()` (either read can raise), probes the
indicator list (a raising probe only `continue`s), and finally matches the
URL (read again) against the checkpoint-style fragments. -/
def checkFor2FABody (p : Page) : Except String Bool := do
  let _ ← p.urlVal
  let _ ← p.titleVal
  if twoFAIndicators.any (fun s => p.visible.contains s) then
    pure true
  else
    let currentUrl ← p.urlVal
    pure (twoFAUrlPatterns.any (fun pat => jsIncludes currentUrl pat))

/-- The helpers.js function `checkFor2FA`: the whole body is wrapped in `try/catch`;
any escaping error is logged and the function returns `false`. -/
def checkFor2FA (p : Page) : Bool :=
  match checkFor2FABody p with
  | .ok b => b
  | .error _ => false

/-- The 2FA indicator subset inlined at the top of `checkLoginSuccess`
(helpers.js lines 622-663), in source order.  It is a strict subset of
`twoFAIndicators` and carries no URL check. -/
def loginSuccess2FAIndicators : List String :=
  [ "input[placeholder*=\"código\" i]",
    "input[placeholder*=\"code\" i]",
    "input[name=\"approvals_code\"]",
    "input[id=\"approvals_code\"]",
    "input[data-testid=\"2fa_code\"]",
    "input[inputmode=\"numeric\"]",
    "input[aria-label*=\"código\" i]",
    "input[aria-label*=\"Código\" i]",
    "input[type=\"text\"][maxlength=\"6\"]",
    "input[autocomplete=\"one-time-code\"]",
    "text=Ve a tu app de autenticación",
    "text=Ingresa el código de 6 dígitos para esta cuenta",
    "text=desde la app de autenticación en dos pasos que configuraste",
    "text=app de autenticación",
    "text=Duo Mobile",
    "text=Google Authenticator",
    "text=Confía en este dispositivo y omite este paso",
    ":text(\"Ve a tu app\")",
    ":text(\"código de 6 dígitos\")",
    ":text(\"app de autenticación\")",
    ":text(\"Ingresa el código\")",
    ":text(\"dos pasos\")",
    ":text(\"autenticación en dos\")",
    "text=código de verificación",
    "text=authentication code",
    "text=two-factor",
    "text=verificación",
    "text=verification",
    "div:has-text(\"Ve a tu app de autenticación\")",
    "div:has-text(\"Ingresa el código de 6 dígitos\")",
    "form:has-text(\"código de 6 dígitos\")" ]

/-- URLs `checkLoginSuccess` treats as logged-in (lines 678-685). -/
def successUrls : List String :=
  [ "home.php", "/?", "/feed", "/home",
    "facebook.com/?sk=h_chr", "facebook.com/?ref=tn_tnmn" ]

/-- Logged-in chrome markers probed by `checkLoginSuccess`
(lines 703-708). -/
def successIndicators : List String :=
  [ "[data-testid=\"search\"]",
    "[aria-label=\"Facebook\"]",
    "div[role=\"main\"]",
    "[data-testid=\"blue_bar\"]" ]

/-- The helpers.js function `checkLoginSuccess`.  Reads `page.url()` outside any `try`
(so a raising read propagates), returns `false` if any selector of its
inlined 2FA subset is visible, `true` if the URL contains a success
fragment, then (inside a `try` whose failure falls through to the final
`return false`) `true` if no login fields remain or a logged-in marker is
visible, else `false`. -/
def checkLoginSuccess (p : Page) : Except String Bool := do
  let currentUrl ← p.urlVal
  if loginSuccess2FAIndicators.any (fun s => p.visible.contains s) then
    pure false
  else if successUrls.any (fun u => jsIncludes currentUrl u) then
    pure true
  else if p.loginFieldsCount = 0 then
    pure true
  else if successIndicators.any (fun s => p.visible.contains s) then
    pure true
  else
    pure false

/-- The fixed 2FA retry ladder of the primary `attemptLoginWithVersion`
(lines 342-357): classify immediately; only if negative, `sleep(1000)` and
re-classify; only if still negative, `sleep(2000)` and re-classify.
`classify k` is the outcome of the `k`-th `checkFor2FA` call.  Returns the
final result, the number of classifications made, and the list of waits
performed before re-classifications. -/
def twoFALadder (classify : Nat → Bool) : Bool × Nat × List Nat :=
  let r1 := classify 0
  if r1 then (true, 1, [])
  else
    let r2 := classify 1
    if r2 then (true, 2, [1000])
    else
      let r3 := classify 2
      (r3, 3, [1000, 2000])

/-- Seven days in milliseconds, the cookie retention window of helpers.js
`loadCookies` (`7 * 24 * 60 * 60 * 1000`). -/
def maxCookieAgeMs : Nat := 7 * 24 * 60 * 60 * 1000

/-- The helpers.js function `loadCookies`, restricted to the data that decides its
result: `none` if no cookie file exists for the identity (or reading it
fails), and `none` if `Date.now() - timestamp > maxAge`; otherwise the
stored bundle (represented by its captured-at timestamp). -/
def loadCookiesModel (now : Nat) (bundle : Option Nat) : Option Nat :=
  match bundle with
  | none => none
  | some ts => if now - ts > maxCookieAgeMs then none else some ts

/-- Environment of one quick-login request for a fixed identity: the
current clock, the identity's stored artifact bundle (its captured-at
timestamp, `none` if absent), and whether the page would classify as
logged in after restoring artifacts under each version. -/
structure QuickEnv where
  now : Nat
  bundle : Option Nat
  pageSuccess : Version → Bool

/-- Result shape shared by the login entry points of the server.
`version` is `none` where the source object carries no `version` field,
and `requires2FA` is false where the field is absent. -/
structure QuickResult where
  success : Bool
  sessionId : Option String
  message : String
  error : Option String
  requires2FA : Bool
  version : Option Version
  attempts : Option (String × String)
  deriving DecidableEq, Repr

/-- Session id built by the primary `attemptLoginWithVersion` for a quick
login: `quick-${email.replace(/[@.]/g,'_')}-${version}-${Date.now()}`. -/
def quickSessionId (now : Nat) (email : String) (v : Version) : String :=
  "quick-" ++ sanitizeEmail email ++ "-" ++ versionStr v ++ "-" ++ toString now

/-- Quick-mode `attemptLoginWithVersion(email, null, version, true)`,
together with the number of browser launches it performs.  The source
returns the `NO_COOKIES` failure before any browser interaction when
`loadCookies` yields nothing; otherwise it launches the persistent
context (one launch), restores artifacts and navigates, and either
succeeds (when the page classifies as logged in) or closes the browser
and returns `QUICK_LOGIN_FAILED`. -/
def attemptQuick (env : QuickEnv) (email : String) (v : Version) :
    QuickResult × Nat :=
  match loadCookiesModel env.now env.bundle with
  | none =>
      ({ success := false, sessionId := none,
         message := "No hay cookies guardadas para " ++ email ++
           ". Usa login normal primero.",
         error := some "NO_COOKIES", requires2FA := false, version := some v,
         attempts := none }, 0)
  | some _ =>
      if env.pageSuccess v then
        ({ success := true, sessionId := some (quickSessionId env.now email v),
           message := "¡Login exitoso usando cookies + cache " ++ versionStr v ++
             "! Página permanece abierta.",
           error := none, requires2FA := false, version := some v,
           attempts := none }, 1)
      else
        ({ success := false, sessionId := none,
           message := "Quick login " ++ versionStr v ++ " falló para " ++ email ++
             ". Las cookies pueden haber expirado.",
           error := some "QUICK_LOGIN_FAILED", requires2FA := false,
           version := some v, attempts := none }, 1)

/-- Dialect selection accepted by the login entry points. -/
inductive Choice
  | auto
  | mobile
  | desktop
  deriving DecidableEq, Repr

/-- Server `performQuickLogin(email, versionChoice)`: single attempt for an
explicit version; for `auto`, mobile then desktop, returning the mobile
result when its error was `NO_COOKIES` and the combined
`BOTH_VERSIONS_FAILED` result otherwise.  The second component counts the
browser launches performed over the whole call. -/
def performQuickLoginM (env : QuickEnv) (email : String) (c : Choice) :
    QuickResult × Nat :=
  match c with
  | .mobile => attemptQuick env email .mobile
  | .desktop => attemptQuick env email .desktop
  | .auto =>
      let m := attemptQuick env email .mobile
      if m.1.success then m
      else
        let d := attemptQuick env email .desktop
        if d.1.success then (d.1, m.2 + d.2)
        else if m.1.error = some "NO_COOKIES" then (m.1, m.2 + d.2)
        else
          ({ success := false, sessionId := none,
             message := "Quick login falló en ambas versiones para " ++ email ++
               ". Usa login normal para renovar cookies.",
             error := some "BOTH_VERSIONS_FAILED", requires2FA := false,
             version := none,
             attempts := some (m.1.message, d.1.message) }, m.2 + d.2)

/-- A pending-2FA record (`pending2FASessions` entry).  The primary server
variant stores `resolve: null, reject: null` ("Se asignará más tarde") and
never assigns them; the legacy variant stores the executor's real
callbacks.  `none` models the JS `null`. -/
structure PendingRec where
  email : String
  version : Version
  timestamp : Nat
  resolveFn : Option Unit
  rejectFn : Option Unit
  deriving DecidableEq, Repr

/-- An `activeSessions` record, restricted to the fields the claims
touch. -/
structure SessionRec where
  email : String
  version : Version
  quick : Bool
  deriving DecidableEq, Repr

/-- The process-wide mutable state of the server: the pending-2FA map, the
active-session map, the identities whose artifacts (cookie file and
storage snapshot) have been written, the number of `browser.close()`
calls, and the pending `setTimeout` registrations (delay in ms, session
id). -/
structure ServerState where
  pending : List (String × PendingRec)
  active : List (String × SessionRec)
  savedArtifacts : List String
  closedBrowsers : Nat
  timers : List (Nat × String)
  deriving DecidableEq, Repr

/-- Lookup in an association list keyed by session id (JS `Map.get` /
property read). -/
def lookupAssoc {α : Type} (l : List (String × α)) (k : String) : Option α :=
  match l with
  | [] => none
  | (k2, v) :: rest => if k2 = k then some v else lookupAssoc rest k

/-- Removal from an association list (JS `Map.delete` / `delete obj[k]`). -/
def removeAssoc {α : Type} (l : List (String × α)) (k : String) :
    List (String × α) :=
  l.filter (fun kv => !(kv.1 == k))

/-- Result of the server's `closeSession`. -/
inductive CloseResult
  | closed
  | notFound
  deriving DecidableEq, Repr

/-- Server `closeSession(sessionId)` (primary lines 701-729): not-found
when the id has no active record (no mutation); otherwise save cookies and
session state for the session's identity, close the browser, and remove
the record. -/
def closeSessionOp (st : ServerState) (sid : String) :
    CloseResult × ServerState :=
  match lookupAssoc st.active sid with
  | none => (.notFound, st)
  | some s =>
      (.closed,
       { st with
         savedArtifacts := s.email :: st.savedArtifacts,
         active := removeAssoc st.active sid,
         closedBrowsers := st.closedBrowsers + 1 })

/-- HTTP-level response of the `/submit-2fa` route. -/
structure SubmitResp where
  status : Nat
  success : Bool
  message : String
  stillRequires2FA : Bool
  loginCompleted : Bool
  deriving DecidableEq, Repr

/-- The `/submit-2fa` route of the primary server variant (lines
1064-1329), for a request carrying a session id and a code.  `codeFound`
and `submitFound` say whether the selector ladders locate a visible code
input and an enabled submit control; `post` is the page state after the
code was typed and submitted, classified with the real `checkFor2FA` and
`checkLoginSuccess`.  When the login classifies as successful, the source
saves artifacts (when an active session exists), deletes the pending
record, and then calls `resolve(...)` — which for a record whose
`resolve` is `null` raises `TypeError: resolve is not a function`, caught
by the inner `catch`, which answers `success:false, stillRequires2FA:true`. -/
def submit2FA (st : ServerState) (sid : String)
    (codeFound submitFound : Bool) (post : Page) :
    SubmitResp × ServerState :=
  match lookupAssoc st.pending sid with
  | none =>
      ({ status := 404, success := false,
         message := "Sesión no encontrada o no está esperando 2FA",
         stillRequires2FA := false, loginCompleted := false }, st)
  | some rec =>
      if !codeFound then
        ({ status := 200, success := false,
           message := "Error procesando 2FA: No se pudo encontrar el campo de código 2FA",
           stillRequires2FA := true, loginCompleted := false }, st)
      else if !submitFound then
        ({ status := 200, success := false,
           message := "Error procesando 2FA: No se pudo encontrar el botón de envío 2FA",
           stillRequires2FA := true, loginCompleted := false }, st)
      else if checkFor2FA post then
        ({ status := 200, success := false,
           message := "Código 2FA incorrecto. Intenta nuevamente.",
           stillRequires2FA := true, loginCompleted := false }, st)
      else
        match checkLoginSuccess post with
        | .error e =>
            ({ status := 200, success := false,
               message := "Error procesando 2FA: " ++ e,
               stillRequires2FA := true, loginCompleted := false }, st)
        | .ok false =>
            ({ status := 200, success := false,
               message := "Error procesando 2FA: Login no exitoso después de 2FA",
               stillRequires2FA := true, loginCompleted := false }, st)
        | .ok true =>
            let st1 :=
              match lookupAssoc st.active sid with
              | some _ => { st with savedArtifacts := rec.email :: st.savedArtifacts }
              | none => st
            let st2 := { st1 with pending := removeAssoc st1.pending sid }
            match rec.resolveFn with
            | none =>
                ({ status := 200, success := false,
                   message := "Error procesando 2FA: resolve is not a function",
                   stillRequires2FA := true, loginCompleted := false }, st2)
            | some _ =>
                ({ status := 200, success := true,
                   message := "¡Login " ++ versionStr rec.version ++ " exitoso con 2FA!",
                   stillRequires2FA := false, loginCompleted := true }, st2)

/-- HTTP-level response of the `/cancel-2fa` route. -/
structure CancelResp where
  status : Nat
  success : Bool
  message : String
  deriving DecidableEq, Repr

/-- The `/cancel-2fa` route of the primary server variant (lines
1332-1368): when the id is pending, delete the pending record then call
`sessionData.reject(...)` — `null` in the primary variant, so a
`TypeError` propagates to the route's `catch` and `closeSession` is never
reached; when `reject` is callable (legacy shape) or the id was not
pending, `closeSession(sessionId)` runs and the route answers success
regardless of its result. -/
def cancel2FA (st : ServerState) (sid : String) : CancelResp × ServerState :=
  match lookupAssoc st.pending sid with
  | some rec =>
      let st1 := { st with pending := removeAssoc st.pending sid }
      match rec.rejectFn with
      | none =>
          ({ status := 500, success := false,
             message := "Error del servidor: sessionData.reject is not a function" },
           st1)
      | some _ =>
          let (_, st2) := closeSessionOp st1 sid
          ({ status := 200, success := true,
             message := "2FA cancelado y sesión cerrada" }, st2)
  | none =>
      let (_, st2) := closeSessionOp st sid
      ({ status := 200, success := true,
         message := "2FA cancelado y sesión cerrada" }, st2)

/-- The 2FA suspension step of the primary `attemptLoginWithVersion`
(lines 358-381): record a pending entry with `resolve: null, reject: null`
and throw the tagged `2FA_REQUIRED` signal.  No timer is scheduled.
Returns the new state and the thrown error message. -/
def primarySuspend2FA (st : ServerState) (sid email : String) (v : Version)
    (now : Nat) : ServerState × String :=
  ({ st with
     pending := (sid, { email := email, version := v, timestamp := now,
                        resolveFn := none, rejectFn := none }) :: st.pending },
   "2FA_REQUIRED:" ++ sid ++ ":" ++ versionStr v)

/-- The 2FA suspension step of the legacy `attemptLoginWithVersion`
(lines 1784-1807): record a pending entry holding the Promise executor's
real `resolve`/`reject` and schedule a 30-minute (`30 * 60 * 1000` ms)
timeout keyed by the session id. -/
def legacySuspend2FA (st : ServerState) (sid email : String) (v : Version)
    (now : Nat) : ServerState :=
  { st with
    pending := (sid, { email := email, version := v, timestamp := now,
                       resolveFn := some (), rejectFn := some () }) :: st.pending,
    timers := (30 * 60 * 1000, sid) :: st.timers }

/-- The body of the legacy 30-minute timeout callback (lines 1801-1806):
if the session is still pending, delete the pending record and reject the
parked login promise.  It touches nothing else: no browser close, no
active-session removal. -/
def legacyTimeoutFire (st : ServerState) (sid : String) : ServerState :=
  match lookupAssoc st.pending sid with
  | some _ => { st with pending := removeAssoc st.pending sid }
  | none => st

/-- Outcome of one full-mode `attemptLoginWithVersion` call as seen by its
caller.  The function catches every internal error itself and returns a
`success:false` result, except the tagged `2FA_REQUIRED:` signal, which
it re-throws. -/
inductive AttemptOutcome
  | returned (r : QuickResult)
  | threw2FA (sid : String)
  deriving DecidableEq, Repr

/-- A settled JavaScript call: a returned value or an uncaught runtime
error. -/
inductive JsOutcome
  | ok (r : QuickResult)
  | referenceError (msg : String)
  deriving DecidableEq, Repr

/-- The `requires2FA: true` result `performFacebookLoginPersistent` builds
when an attempt threw the `2FA_REQUIRED` signal. -/
def requires2FAResult (sid : String) (v : Version) : QuickResult :=
  { success := false, sessionId := some sid,
    message := "Se requiere código 2FA " ++
      (match v with | .mobile => "móvil" | .desktop => "desktop") ++
      ". Usa el modal para ingresar el código.",
    error := none, requires2FA := true, version := some v, attempts := none }

/-- The `auto` branch of the primary `performFacebookLoginPersistent`
(lines 547-643).  `const mobileResult` / `const desktopResult` are
declared inside the two `try` blocks, so the final combined
`BOTH_VERSIONS_FAILED` return reads variables that are out of scope: when
both attempts fail outright the function raises
`ReferenceError: mobileResult is not defined` instead of returning.  The
second component records the dialects attempted, in order. -/
def performLoginAuto (attempt : Version → AttemptOutcome) :
    JsOutcome × List Version :=
  match attempt .mobile with
  | .threw2FA sid => (.ok (requires2FAResult sid .mobile), [.mobile])
  | .returned m =>
      if m.success then (.ok m, [.mobile])
      else
        match attempt .desktop with
        | .threw2FA sid =>
            (.ok (requires2FAResult sid .desktop), [.mobile, .desktop])
        | .returned d =>
            if d.success then (.ok d, [.mobile, .desktop])
            else
              (.referenceError "mobileResult is not defined",
               [.mobile, .desktop])

/-- The on-disk layout the DELETE `/cookies/:email` route manipulates:
the existing artifact files in `COOKIES_DIR` and the existing directories
in `CACHE_DIR`. -/
structure Fs where
  files : List String
  dirs : List String
  deriving DecidableEq, Repr

/-- DELETE `/cookies/:email` (primary lines 954-995): unlink the cookie
file and the session file when present, remove the cache directory named
`email.replace(/[@.]/g,'_')` (no version suffix) when present, and report
the count of removed items. -/
def deleteAccountData (fs : Fs) (email : String) : Nat × Fs :=
  let hitCookie := fs.files.contains (cookieFileName email)
  let fs1 :=
    if hitCookie then
      { fs with files := fs.files.filter (fun f => !(f == cookieFileName email)) }
    else fs
  let hitSession := fs1.files.contains (sessionFileName email)
  let fs2 :=
    if hitSession then
      { fs1 with files := fs1.files.filter (fun f => !(f == sessionFileName email)) }
    else fs1
  let hitCache := fs2.dirs.contains (deleteCacheDirName email)
  let fs3 :=
    if hitCache then
      { fs2 with dirs := fs2.dirs.filter (fun d => !(d == deleteCacheDirName email)) }
    else fs2
  ((if hitCookie then 1 else 0) + (if hitSession then 1 else 0) +
     (if hitCache then 1 else 0), fs3)

/-!  Concrete fixtures used by the evaluation theorems and witnesses. -/

/-- A page sitting on a checkpoint-style URL (matched by the
`twoFAUrlPatterns`) that also contains the success fragment `/?`, with no
visible indicator element of either list. -/
def checkpointPage : Page :=
  { urlVal := .ok "https://m.facebook.com/checkpoint/?next=home",
    titleVal := .ok "Facebook",
    visible := [],
    loginFieldsCount := 2 }

/-- A page that classifies as logged in: no 2FA indicator, post-login URL,
no remaining credential fields. -/
def loggedInPage : Page :=
  { urlVal := .ok "https://m.facebook.com/home.php",
    titleVal := .ok "Facebook",
    visible := [],
    loginFieldsCount := 0 }

/-- A page whose URL read raises, with a 2FA code field visible. -/
def urlErrorPage : Page :=
  { urlVal := .error "Target page, context or browser has been closed",
    titleVal := .ok "Facebook",
    visible := ["input[name=\"approvals_code\"]"],
    loginFieldsCount := 0 }

/-- Pending record written by the primary suspension step: `resolve` and
`reject` are `null`. -/
def pendingRec1 : PendingRec :=
  { email := "user@example.com", version := .mobile, timestamp := 1000,
    resolveFn := none, rejectFn := none }

/-- The active-session record registered by the same full login. -/
def sessionRec1 : SessionRec :=
  { email := "user@example.com", version := .mobile, quick := false }

/-- Server state after a full mobile login for `user@example.com`
suspended at 2FA under the primary variant: one pending record (null
continuations) and its matching active session. -/
def st2FA : ServerState :=
  { pending := [("sid1", pendingRec1)],
    active := [("sid1", sessionRec1)],
    savedArtifacts := [],
    closedBrowsers := 0,
    timers := [] }

/-- The empty server state. -/
def stEmpty : ServerState :=
  { pending := [], active := [], savedArtifacts := [], closedBrowsers := 0,
    timers := [] }

/-- Quick-login environment with no stored bundle. -/
def envNoBundle : QuickEnv :=
  { now := 10, bundle := none, pageSuccess := fun _ => true }

/-- Quick-login environment whose stored bundle is older than the 7-day
retention window (captured at 0, clock at 700000000 ms). -/
def envOldBundle : QuickEnv :=
  { now := 700000000, bundle := some 0, pageSuccess := fun _ => true }

/-- Attempt function under which both dialects fail outright with the
`ElementNotFound`-style failure result `attemptLoginWithVersion` returns
when the email field cannot be located. -/
def bothFailAttempt : Version → AttemptOutcome := fun v =>
  .returned
    { success := false, sessionId := none,
      message := "Error " ++ versionStr v ++
        ": No se pudo encontrar el campo de email en versión " ++ versionStr v,
      error := some ("No se pudo encontrar el campo de email en versión " ++
        versionStr v),
      requires2FA := false, version := some v, attempts := none }

/-- On-disk state after a full mobile login for `user@example.com`: the
cookie file, the storage snapshot, and the cache directory created by
`createPersistentContext` (with its `_mobile` suffix). -/
def fsAfterLogin : Fs :=
  { files := [cookieFileName "user@example.com",
              sessionFileName "user@example.com"],
    dirs := [loginCacheDirName "user@example.com" Version.mobile] }

/-- A state holding an active session for `sid1` but no pending record,
used to exercise the legacy timeout callback. -/
def stLegacyBase : ServerState :=
  { pending := [], active := [("sid1", sessionRec1)], savedArtifacts := [],
    closedBrowsers := 0, timers := [] }

/-- The state after the legacy variant suspends `sid1` at 2FA on top of
`stLegacyBase`. -/
def stLegacy : ServerState :=
  legacySuspend2FA stLegacyBase "sid1" "user@example.com" Version.mobile 1000

/-- A ladder classification that first reports 2FA at the third call. -/
def clf0 : Nat → Bool := fun i => decide (i = 2)

/-- Claim C1: for a session suspended in awaiting-second-factor by a full
login, `submitSecondFactor` with a code the site accepts should return
Success, write a fresh artifact bundle, remove the Pending record, and
make any subsequent call answer SessionNotFound.  On the primary server
variant the pending record holds `resolve: null` (never assigned), so the
success branch crashes calling it: artifacts are written, the Pending
record is removed and a retry gets 404, but the response is
`success:false, stillRequires2FA:true` instead of Success. -/
theorem C1_submit2FA_resolveNull_crash :
    (submit2FA st2FA "sid1" true true loggedInPage).1 =
      { status := 200, success := false,
        message := "Error procesando 2FA: resolve is not a function",
        stillRequires2FA := true, loginCompleted := false } ∧
    (submit2FA st2FA "sid1" true true loggedInPage).2.savedArtifacts =
      ["user@example.com"] ∧
    lookupAssoc (submit2FA st2FA "sid1" true true loggedInPage).2.pending
      "sid1" = none ∧
    (submit2FA (submit2FA st2FA "sid1" true true loggedInPage).2 "sid1" true
      true loggedInPage).1.status = 404 := by
  refine ⟨rfl, rfl, rfl, rfl⟩

/-- Claim C2: for an identity with no stored artifact bundle, `quickLogin`
returns the `NO_COOKIES` error under every dialect choice and never
launches a browser; an identity whose bundle is older than the 7-day
retention window behaves identically to the no-bundle case. -/
theorem C2_quickLogin_noArtifacts_noLaunch :
    (∀ (env : QuickEnv) (email : String) (c : Choice), env.bundle = none →
      (performQuickLoginM env email c).1.error = some "NO_COOKIES" ∧
      (performQuickLoginM env email c).2 = 0) ∧
    (∀ (env : QuickEnv) (email : String) (c : Choice) (ts : Nat),
      env.bundle = some ts → env.now - ts > maxCookieAgeMs →
      performQuickLoginM env email c =
        performQuickLoginM { env with bundle := none } email c) := by
  constructor
  · intro env email c h
    cases c <;>
      simp [performQuickLoginM, attemptQuick, loadCookiesModel, h]
  · intro env email c ts h hage
    cases c <;>
      simp [performQuickLoginM, attemptQuick, loadCookiesModel, h, hage]

/-- Witness for C2 at a concrete empty store and a concrete expired
bundle. -/
theorem C2_quickLogin_noArtifacts_witness :
    ((performQuickLoginM envNoBundle "user@example.com" Choice.auto).1.error =
        some "NO_COOKIES" ∧
      (performQuickLoginM envNoBundle "user@example.com" Choice.auto).2 = 0) ∧
    performQuickLoginM envOldBundle "user@example.com" Choice.auto =
      performQuickLoginM { envOldBundle with bundle := none }
        "user@example.com" Choice.auto :=
  ⟨C2_quickLogin_noArtifacts_noLaunch.1 envNoBundle "user@example.com"
      Choice.auto rfl,
   C2_quickLogin_noArtifacts_noLaunch.2 envOldBundle "user@example.com"
      Choice.auto 0 rfl (by decide)⟩

/-- Claim C3: with `auto` dialect choice, after a failed mobile attempt
the desktop dialect is attempted before anything is returned; but when
both attempts fail outright, the primary `performFacebookLoginPersistent`
raises `ReferenceError: mobileResult is not defined` (the combined
`BOTH_VERSIONS_FAILED` return reads `const`s scoped to the `try` blocks)
instead of returning the combined failure. -/
theorem C3_auto_fallback_referenceError :
    (performLoginAuto bothFailAttempt).2 =
      [Version.mobile, Version.desktop] ∧
    (performLoginAuto bothFailAttempt).1 =
      JsOutcome.referenceError "mobileResult is not defined" :=
  ⟨rfl, rfl⟩

/-- Claim C4: cancelling a suspended session should remove the Pending
record and close browser + Session Record.  On the primary variant the
pending record holds `reject: null`; after the Pending record is deleted,
calling it raises a `TypeError` that aborts the route before
`closeSession` runs: the browser is never closed and the Session Record
survives, while the route answers 500.  For an id with neither a pending
nor an active record, `closeSession` reports not-found without mutating
state. -/
theorem C4_cancel2FA_rejectNull_leaksBrowser :
    (cancel2FA st2FA "sid1").1 =
      { status := 500, success := false,
        message := "Error del servidor: sessionData.reject is not a function" } ∧
    (cancel2FA st2FA "sid1").2.pending = [] ∧
    lookupAssoc (cancel2FA st2FA "sid1").2.active "sid1" = some sessionRec1 ∧
    (cancel2FA st2FA "sid1").2.closedBrowsers = 0 ∧
    closeSessionOp st2FA "ghost" = (CloseResult.notFound, st2FA) := by
  refine ⟨rfl, rfl, rfl, rfl, rfl⟩

/-- Claim C5: `checkFor2FA` returning true should force
`checkLoginSuccess` to return false on the same page.  The inlined 2FA
re-check of `checkLoginSuccess` omits the URL-fragment patterns: on a
checkpoint URL that also contains the `/?` success fragment, with no
visible indicator element, `checkFor2FA` is true and `checkLoginSuccess`
is also true. -/
theorem C5_checkpoint_url_not_exclusive :
    checkFor2FA checkpointPage = true ∧
    checkLoginSuccess checkpointPage = Except.ok true := by
  refine ⟨rfl, rfl⟩

/-- Claim C6: after submit, 2FA outcome classification follows the fixed
retry ladder — classify immediately, then (only if negative) wait 1000 ms
and re-classify, then (only if still negative) wait 2000 ms more and
re-classify: at most three classifications, stopping at the first
positive result. -/
theorem C6_retry_ladder (classify : Nat → Bool) :
    (twoFALadder classify).2.1 ≤ 3 ∧
    ((twoFALadder classify).1 = true ↔
      ∃ i, i < (twoFALadder classify).2.1 ∧ classify i = true) ∧
    (∀ i, i + 1 < (twoFALadder classify).2.1 → classify i = false) ∧
    (twoFALadder classify).2.2 =
      List.take ((twoFALadder classify).2.1 - 1) [1000, 2000] := by
  refine ⟨?_, ?_, ?_, ?_⟩
  · cases h0 : classify 0 <;> cases h1 : classify 1 <;>
      simp [twoFALadder, h0, h1]
  · cases h0 : classify 0 with
    | true => simp [twoFALadder, h0]
    | false =>
        cases h1 : classify 1 with
        | true =>
            simp [twoFALadder, h0, h1]
            exact ⟨1, by omega, h1⟩
        | false =>
            cases h2 : classify 2 with
            | true =>
                simp [twoFALadder, h0, h1, h2]
                exact ⟨2, by omega, h2⟩
            | false =>
                simp [twoFALadder, h0, h1, h2]
                intro x hx
                interval_cases x <;> assumption
  · intro i hi
    cases h0 : classify 0 with
    | true => simp [twoFALadder, h0] at hi
    | false =>
        cases h1 : classify 1 with
        | true =>
            simp [twoFALadder, h0, h1] at hi
            have hz : i = 0 := by omega
            rw [hz]
            exact h0
        | false =>
            simp [twoFALadder, h0, h1] at hi
            have hz : i = 0 ∨ i = 1 := by omega
            cases hz with
            | inl h => rw [h]; exact h0
            | inr h => rw [h]; exact h1
  · cases h0 : classify 0 <;> cases h1 : classify 1 <;>
      simp [twoFALadder, h0, h1]

/-- Witness for C6 at a classification that first turns positive on the
third call. -/
theorem C6_retry_ladder_witness :
    (twoFALadder clf0).2.1 ≤ 3 ∧ clf0 0 = false :=
  ⟨(C6_retry_ladder clf0).1, (C6_retry_ladder clf0).2.2.1 0 (by decide)⟩

/-- Claim C7: a session suspended awaiting its second factor should time
out after 30 minutes with automatic teardown.  The primary suspension
step schedules no timer at all (the pending record simply persists), and
the legacy variant's 30-minute timer only removes the Pending record and
rejects the parked promise — it closes no browser and removes no Session
Record. -/
theorem C7_no_timeout_scheduled :
    (primarySuspend2FA stEmpty "sid1" "user@example.com" Version.mobile
        1000).1.timers = [] ∧
    (primarySuspend2FA stEmpty "sid1" "user@example.com" Version.mobile
        1000).2 = "2FA_REQUIRED:sid1:mobile" ∧
    lookupAssoc (primarySuspend2FA stEmpty "sid1" "user@example.com"
        Version.mobile 1000).1.pending "sid1" = some pendingRec1 ∧
    stLegacy.timers = [(1800000, "sid1")] ∧
    (legacyTimeoutFire stLegacy "sid1").pending = [] ∧
    (legacyTimeoutFire stLegacy "sid1").active = [("sid1", sessionRec1)] ∧
    (legacyTimeoutFire stLegacy "sid1").closedBrowsers = 0 := by
  refine ⟨rfl, rfl, rfl, rfl, rfl, rfl, rfl⟩

/-- Counterexample to claim C8: the sanitizing transform maps the two
distinct identities `a@b` and `a.b` to the same artifact file name and
cache directory name, so it is not injective and not reversible. -/
theorem C8_sanitize_not_injective_cex :
    ("a@b" : String) ≠ "a.b" ∧
    sanitizeEmail "a@b" = sanitizeEmail "a.b" ∧
    cookieFileName "a@b" = cookieFileName "a.b" ∧
    loginCacheDirName "a@b" Version.mobile =
      loginCacheDirName "a.b" Version.mobile := by
  refine ⟨by decide, rfl, rfl, rfl⟩

/-- Claim C8 (amended): the derived names are deterministic in the
identity, but the sanitizing transform is not reversible: there exist
distinct identities whose derived artifact file names, snapshot names and
cache directory names coincide, so the identity cannot in general be
recovered from a derived name. -/
theorem C8_sanitize_collision :
    ∃ a b : String, a ≠ b ∧ sanitizeEmail a = sanitizeEmail b ∧
      cookieFileName a = cookieFileName b ∧
      sessionFileName a = sessionFileName b ∧
      loginCacheDirName a Version.mobile = loginCacheDirName b Version.mobile :=
  ⟨"a@b", "a.b", by decide, rfl, rfl, rfl, rfl⟩

/-- Claim C9: `deleteAccountData` should remove the cookie file, the
snapshot file and the identity's cache directory and report the exact
count.  The DELETE route computes the cache directory without the
`_${version}` suffix that `createPersistentContext` uses when creating
it, so the directory created by a prior mobile login is not removed and
not counted: the call reports 2, not 3, and the directory survives. -/
theorem C9_delete_misses_cache_dir :
    (deleteAccountData fsAfterLogin "user@example.com").1 = 2 ∧
    (deleteAccountData fsAfterLogin "user@example.com").2.dirs =
      [loginCacheDirName "user@example.com" Version.mobile] ∧
    deleteCacheDirName "user@example.com" ≠
      loginCacheDirName "user@example.com" Version.mobile := by
  refine ⟨rfl, rfl, by decide⟩

/-- Claim C10: `checkFor2FA` is total at its boundary: whenever its body
raises (for example because reading the page URL or title fails), the
surrounding catch returns false; in particular any page whose URL read
raises classifies as "no second factor required" even if a 2FA code field
is visible. -/
theorem C10_checkFor2FA_total_boundary :
    (∀ (p : Page) (e : String), checkFor2FABody p = Except.error e →
      checkFor2FA p = false) ∧
    (∀ (t : Except String String) (vis : List String) (n : Nat) (e : String),
      checkFor2FA
        { urlVal := Except.error e, titleVal := t, visible := vis,
          loginFieldsCount := n } = false) := by
  constructor
  · intro p e h
    simp [checkFor2FA, h]
  · intro t vis n e
    rfl

/-- Witness for C10 at a page whose URL read raises while a 2FA code
field is visible. -/
theorem C10_checkFor2FA_total_boundary_witness :
    checkFor2FABody urlErrorPage =
      Except.error "Target page, context or browser has been closed" ∧
    checkFor2FA urlErrorPage = false :=
  ⟨rfl, C10_checkFor2FA_total_boundary.1 urlErrorPage _ rfl⟩

end FBLogin
